import Mathlib

/-!
Shallow embedding of the message-scanning Discord bot
(`spoopafubot.py`, with `spootifybot.py` as an earlier revision of the
same bot): the message data model, the regex predicates of the concrete
scanners, the live-dispatch loop of
`MessageScannerDiscordClient.on_message`, the backfill walk of
`MessageScannerDiscordClient.search_old_messages`, and the playlist
reconciliation of `SpotifyMessageScanner.__add_track_to_playlist`.

External collaborators (the Discord gateway and the Spotify web API) are
modelled as explicit inputs: the fetched history window is a list of
messages (newest first), the Spotify search endpoint is an oracle
`String → Option (List SearchTrack)` (`none` models a falsy response),
and the target playlist is a list of track ids.
-/

namespace Spoopafu

/-- The Python exceptions the embedded code can raise:
`TypeError` (unpacking a non-iterable) and `IndexError` (no such group). -/
inductive PyErr where
  | typeError
  | indexError
  deriving DecidableEq, Repr

/-- A Discord message as the scanners see it: `discord.Message` restricted
to the fields the code reads (`content`, `author.id`, `created_at`, and an
id standing for the object identity used by `reference=message`). -/
structure Message where
  id : Nat
  content : String
  authorId : Nat
  createdAt : Nat
  deriving DecidableEq, Repr

/-- `old_message.author == self.user`: discord.py user equality compares
ids; `self.user` may be `None` (comparison with `None` is `False`). -/
def authorIsSelf (botUser : Option Nat) (m : Message) : Bool :=
  match botUser with
  | some b => m.authorId == b
  | none => false

/-! ### WakeUpMessageScanner.REGEX

The pattern is `w[a+]ke[\s+]?[u+]p[\s+]b[o+]t[!+]?`, compiled with
`re.IGNORECASE` and applied with `re.search`.  Each bracketed class
(`[a+]`, `[u+]`, `[o+]`, `[\s+]`, `[!+]`) matches exactly ONE character
drawn from the class ('+' is a literal inside a class, not a repetition
operator).  We embed a specialized matcher: a match attempt at one
position, and search = some suffix admits an attempt.  The trailing
`[!+]?` and the final optionality impose no constraint on whether a
match exists, and the two `?`-optional classes are handled by explicit
alternation (which is exactly the backtracking the engine performs). -/

/-- Python `\s` on the ASCII test inputs: space, tab, LF, CR, FF, VT. -/
def isPyWhitespace (c : Char) : Bool :=
  c == ' ' || c == '\t' || c == '\n' || c == '\r' || c == '\x0b' || c == '\x0c'

/-- Tail of the wake pattern after the optional separator:
`[u+]p[\s+]b[o+]t` (the trailing `[!+]?` is optional, hence no
constraint on existence of a match). -/
def wakeFromUp : List Char → Bool
  | u :: p :: s :: b :: o :: t :: _ =>
      (u.toLower == 'u' || u == '+') && p.toLower == 'p' &&
      (isPyWhitespace s || s == '+') && b.toLower == 'b' &&
      (o.toLower == 'o' || o == '+') && t.toLower == 't'
  | _ => false

/-- `[\s+]?` then `wakeFromUp`: try consuming zero characters, else one
character from the class. -/
def wakeAfterKe (cs : List Char) : Bool :=
  wakeFromUp cs ||
    (match cs with
     | c :: rest => (isPyWhitespace c || c == '+') && wakeFromUp rest
     | [] => false)

/-- One match attempt of the wake-up pattern anchored at the head:
`w[a+]ke` then `wakeAfterKe`. -/
def wakeMatchAt : List Char → Bool
  | w :: a :: k :: e :: rest =>
      w.toLower == 'w' && (a.toLower == 'a' || a == '+') &&
      k.toLower == 'k' && e.toLower == 'e' && wakeAfterKe rest
  | _ => false

/-- `WakeUpMessageScanner.is_match`: `re.search` of the wake-up pattern,
i.e. some suffix of the content admits a match attempt. -/
def wakeUpIsMatch (s : String) : Bool :=
  s.data.tails.any wakeMatchAt

/-! ### SpotifyMessageScanner.PATTERNS[0]: `\<(.*?)\>`

`re.search` finds the leftmost `<`, and the lazy group is the shortest
run of non-newline characters up to the next `>` (`.` does not match a
newline without DOTALL); if no `>` is reachable from a given `<`, the
engine retries from later positions, and a match can only start at a
literal `<`. -/

/-- Consume the lazy group: characters up to the first `>`; fail on a
newline or the end of the string. -/
def takeUntilGt : List Char → Option (List Char)
  | [] => none
  | c :: rest =>
      if c == '>' then some []
      else if c == '\n' then none
      else (takeUntilGt rest).map (fun g => c :: g)

/-- Leftmost match of `\<(.*?)\>`: returns group 1. -/
def angleSearchChars : List Char → Option (List Char)
  | [] => none
  | c :: rest =>
      if c == '<' then
        match takeUntilGt rest with
        | some g => some g
        | none => angleSearchChars rest
      else angleSearchChars rest

/-- `PATTERNS[0].search(content)` with `match.group(1)`. -/
def angleGroup (s : String) : Option String :=
  (angleSearchChars s.data).map (fun cs => String.mk cs)

/-! ### SpotifyMessageScanner.PATTERNS[1]

`(?:https?:\/\/)?(?:[^.]+\.)?open\.spotify\.com\/track\/([A-Za-z0-9_]*)`
with `re.IGNORECASE`.  Both leading groups are optional and the trailing
class may match the empty string, so `re.search` succeeds iff the
literal `open.spotify.com/track/` occurs (case-insensitively) in the
content: at the position of that literal, a match attempt with both
optional groups skipped and an empty id succeeds.  Note the pattern has
exactly ONE capturing group (both prefixes are non-capturing). -/

/-- Case-insensitive prefix test: the first list is already lowercase. -/
def startsWithLowered : List Char → List Char → Bool
  | [], _ => true
  | _ :: _, [] => false
  | l :: ls, c :: cs => c.toLower == l && startsWithLowered ls cs

/-- The literal core of the track-link pattern. -/
def linkCore : List Char := "open.spotify.com/track/".data

/-- `PATTERNS[1].search(content) is not None`. -/
def linkIsMatch (s : String) : Bool :=
  s.data.tails.any (startsWithLowered linkCore)

/-! ### DiscordMessageRegexScanner.is_match (spoopafubot.py)

`is_match` iterates `for regex,_ in self.patterns`, i.e. it unpacks each
element of `self.patterns` as a pair.  An element that is a bare
compiled pattern (not a pair) cannot be unpacked and raises `TypeError`
on the first loop iteration, before the content is ever inspected. -/

/-- An element of a `patterns` list: either a bare compiled pattern or a
`(pattern, tag)` pair (a pattern is represented by its match test). -/
inductive PatternEntry where
  | bare (test : String → Bool)
  | pair (test : String → Bool) (tag : String)

/-- `DiscordMessageRegexScanner.is_match`: unpack each entry as
`regex,_`; a bare entry raises `TypeError`; otherwise return `True` on
the first pattern whose search succeeds, else `False`. -/
def regexScannerIsMatch : List PatternEntry → String → Except PyErr Bool
  | [], _ => .ok false
  | PatternEntry.bare _ :: _, _ => .error PyErr.typeError
  | PatternEntry.pair test _ :: rest, content =>
      if test content then .ok true else regexScannerIsMatch rest content

/-- `SpotifyMessageScanner.PATTERNS` as stored: two bare compiled
patterns (the angle-bracket query pattern and the track-link pattern),
not pairs. -/
def spotifyPatternEntries : List PatternEntry :=
  [PatternEntry.bare (fun c => (angleGroup c).isSome),
   PatternEntry.bare linkIsMatch]

/-- `SpotifyMessageScanner.is_match` (inherited from
`DiscordMessageRegexScanner`) applied to a message. -/
def spotifyIsMatch (m : Message) : Except PyErr Bool :=
  regexScannerIsMatch spotifyPatternEntries m.content

/-! ### The playlist reconciler -/

/-- The Spotify endpoint `playlist_remove_all_occurrences_of_items`:
every occurrence of each listed item is removed from the playlist. -/
def playlist_remove_all_occurrences_of_items
    (playlist : List String) (items : List String) : List String :=
  playlist.filter (fun t => !(items.contains t))

/-- The Spotify endpoint `playlist_add_items`: the items are appended to
the playlist. -/
def playlist_add_items (playlist : List String) (items : List String) : List String :=
  playlist ++ items

/-- `SpotifyMessageScanner.__add_track_to_playlist`: remove all existing
occurrences of the track, then add it (the warning on an empty add
result is log-only). -/
def add_track_to_playlist (playlist : List String) (track_id : String) : List String :=
  playlist_add_items (playlist_remove_all_occurrences_of_items playlist [track_id]) [track_id]

/-! ### SpotifyMessageScanner.handle_message -/

/-- One item of `results['tracks']['items']`: the fields the code reads
(`track['id']` and `track['external_urls']['spotify']`). -/
structure SearchTrack where
  id : String
  url : String
  deriving DecidableEq, Repr

/-- `song_metadata.replace("-", "")`. -/
def dehyphen (s : String) : String :=
  String.mk (s.data.filter (fun c => !(c == '-')))

/-- `SpotifyMessageScanner.handle_message`.  `search` is the
`spotify.search` oracle (`none` models a falsy response, `some items`
the `results['tracks']['items']` list); `botUser` is `client.user`;
the result pairs the returned reply with the playlist after the call.
In the link branch the code reads `match.group(2)`, but `PATTERNS[1]`
has exactly one capturing group, so the read raises `IndexError`
before any playlist call is made. -/
def spotifyHandleMessage (search : String → Option (List SearchTrack))
    (botUser : Option Nat) (m : Message) (playlist : List String) :
    Except PyErr (Option String × List String) :=
  match angleGroup m.content with
  | some song_metadata =>
      match search (dehyphen song_metadata) with
      | none => .ok (none, playlist)
      | some [] => .ok (none, playlist)
      | some (track :: _) =>
          .ok (some track.url, add_track_to_playlist playlist track.id)
  | none =>
      match botUser with
      | some b =>
          if linkIsMatch m.content && !(m.authorId == b) then
            .error PyErr.indexError
          else .ok (none, playlist)
      | none => .ok (none, playlist)

/-! ### The live dispatch core (`on_message`) -/

/-- A scanner as the dispatch core sees it: the two entry points of the
`DiscordMessageScanner` contract, which may raise. -/
structure Scanner where
  is_match : Message → Except PyErr Bool
  handle : Message → Except PyErr (Option String)

/-- A channel send: `reply content refId` is
`message.channel.send(content, reference=message)`, `plain content` is
`message.channel.send(content)` with no reference. -/
inductive Send where
  | reply (content : String) (refId : Nat)
  | plain (content : String)
  deriving DecidableEq, Repr

/-- The generic apology sent by the `except` arm of `on_message`. -/
def apologyText : String := "Whoops that hurt my brain...maybe try again?"

/-- The scanner loop of `on_message`, wrapped in one `try`: invoke each
handler in order, sending each non-`None` reply; the first raised
exception aborts the loop and sends the apology (with no reference).
Returns the list of handlers whose `handle` was invoked together with
the sends performed. -/
def dispatchFrom (m : Message) : List Scanner → List Scanner × List Send
  | [] => ([], [])
  | s :: rest =>
      match s.handle m with
      | .error _ => ([s], [Send.plain apologyText])
      | .ok none =>
          let r := dispatchFrom m rest
          (s :: r.1, r.2)
      | .ok (some reply) =>
          let r := dispatchFrom m rest
          (s :: r.1, Send.reply reply m.id :: r.2)

/-- The state of `MessageScannerDiscordClient` that the message path
touches. -/
structure ClientState where
  message_handlers : List Scanner
  ready_timestamp : Option Nat

/-- `on_message`: the scanner loop with its `try`/`except`; it reads the
handler list and never mutates the client state. -/
def onMessage (st : ClientState) (m : Message) : ClientState × List Send :=
  (st, (dispatchFrom m st.message_handlers).2)

/-- The live stream: `on_message` fired for each delivered message in
order, threading the client state. -/
def runLive (st : ClientState) : List Message → List (List Send)
  | [] => []
  | m :: rest =>
      let r := onMessage st m
      r.2 :: runLive r.1 rest

/-! ### The backfill walk (`search_old_messages`) -/

/-- The result of the `for old_message in old_messages` loop: the
messages visited (in walk order, newest first), those collected into
`old_message_to_handle`, and the exception that aborted the loop, if
any.  A bot-authored message stops the walk (`break`) before
`is_match` is consulted; otherwise `is_match` runs and may raise. -/
structure WalkResult where
  visited : List Message
  collected : List Message
  err : Option PyErr
  deriving Repr

/-- The walk over the fetched window (newest first). -/
def walkMsgs (botUser : Option Nat) (isM : Message → Except PyErr Bool) :
    List Message → WalkResult
  | [] => ⟨[], [], none⟩
  | m :: rest =>
      if authorIsSelf botUser m then ⟨[m], [], none⟩
      else
        match isM m with
        | .error e => ⟨[m], [], some e⟩
        | .ok true =>
            let r := walkMsgs botUser isM rest
            ⟨m :: r.visited, m :: r.collected, r.err⟩
        | .ok false =>
            let r := walkMsgs botUser isM rest
            ⟨m :: r.visited, r.collected, r.err⟩

/-- The replay loop over `old_message_to_handle`: `handle_message` is
called for each collected message in order; the first raised exception
aborts the replay (the sends are I/O we do not need to observe). -/
def replayErr (handleM : Message → Except PyErr (Option String)) :
    List Message → Option PyErr
  | [] => none
  | m :: rest =>
      match handleM m with
      | .error e => some e
      | .ok _ => replayErr handleM rest

/-- The observable outcome of a `search_old_messages` run: the value of
`ready_timestamp` afterwards and the exception that escaped the task,
if any. -/
structure BackfillOutcome where
  ready_timestamp : Option Nat
  raised : Option PyErr
  deriving DecidableEq, Repr

/-- `search_old_messages` over a fetched window (`channel.history` with
`limit=100, before=ready_timestamp`, newest first).  `last_message`
tracks the last visited message; the checkpoint assignment
`self.ready_timestamp = last_message.created_at` sits at the end of the
body, so an exception raised by the walk or by the replay leaves the
checkpoint unchanged.  The courtesy sends and sleeps are pure I/O and
are not modelled. -/
def searchOldMessages (botUser : Option Nat)
    (isM : Message → Except PyErr Bool)
    (handleM : Message → Except PyErr (Option String))
    (ready0 : Option Nat) (window : List Message) : BackfillOutcome :=
  let w := walkMsgs botUser isM window
  match w.err with
  | some e => ⟨ready0, some e⟩
  | none =>
      match replayErr handleM w.collected with
      | some e => ⟨ready0, some e⟩
      | none =>
          match w.visited.getLast? with
          | some lastM => ⟨some lastM.createdAt, none⟩
          | none => ⟨ready0, none⟩

/-! ### Concrete program scanners and sample inputs -/

/-- `WakeUpMessageScanner.BOT_REPLIES[0]` (the apostrophe of the source
literal is elided, which no claim inspects). -/
def wakeBotReply : String :=
  "Oh my :flushed: I must have dozed off...let me see what I missed"

/-- `WakeUpMessageScanner.handle_message`: on a wake-word match it
schedules a backfill task (a side effect outside the reply channel) and
returns the dozing-off reply; otherwise `None`. -/
def wakeUpScannerHandle (m : Message) : Except PyErr (Option String) :=
  if wakeUpIsMatch m.content then .ok (some wakeBotReply) else .ok none

/-- The `WakeUpMessageScanner` instance as a dispatch-core scanner. -/
def wakeUpScanner : Scanner :=
  ⟨fun m => .ok (wakeUpIsMatch m.content), wakeUpScannerHandle⟩

/-- The `SpotifyMessageScanner` instance as a dispatch-core scanner,
specialized at a search oracle, the logged-in user and the current
playlist (the dispatch core only observes the returned reply). -/
def spotifyScannerAt (search : String → Option (List SearchTrack))
    (botUser : Option Nat) (playlist : List String) : Scanner :=
  ⟨spotifyIsMatch, fun m => (spotifyHandleMessage search botUser m playlist).map Prod.fst⟩

/-- A concrete search oracle: the query `abba` has one track hit,
everything else returns an empty item list. -/
def demoSearch : String → Option (List SearchTrack) := fun q =>
  if q == "abba" then
    some [⟨"trackabba", "https://open.spotify.com/track/trackabba"⟩]
  else some []

/-- A plain message matching no scanner pattern, from user 7. -/
def plainMsg : Message := ⟨18, "hello world", 7, 3⟩

/-- A direct-track-link message from user 7 (the bot user id is 1). -/
def linkMsg : Message := ⟨14, "https://open.spotify.com/track/abc", 7, 30⟩

/-- A direct-track-link message authored by the bot user 1, with an
angle-bracket query in the same content. -/
def botLinkQueryMsg : Message :=
  ⟨15, "<abba> https://open.spotify.com/track/abc", 1, 20⟩

/-- A direct-track-link message authored by the bot user 1, with no
angle-bracket query. -/
def botLinkMsg : Message := ⟨16, "open.spotify.com/track/abc", 1, 10⟩

/-- An angle-bracket query message authored by the bot user 1. -/
def botQueryMsg : Message := ⟨17, "<abba>", 1, 5⟩

/-- A fetched backfill window with a single non-bot message. -/
def c2Window : List Message := [⟨10, "hello", 7, 50⟩]

/-- A fetched backfill window: a non-bot message, then a bot-authored
message (bot user id 1) at position 1, then an older message. -/
def c3Window : List Message :=
  [⟨11, "hello there", 7, 60⟩, ⟨12, "Adding that one to the collection", 1, 50⟩,
   ⟨13, "open.spotify.com/track/abc", 7, 40⟩]

/-- A direct-track-link message from user 7 used to drive the dispatch
core into its exception arm. -/
def c7msg : Message := ⟨19, "open.spotify.com/track/xyz", 7, 2⟩

/-- Another direct-track-link message from user 7. -/
def c9msg : Message := ⟨20, "https://open.spotify.com/track/zzz", 7, 1⟩

/-- The sends produced by a list of succeeding scanners: each handler
that returns `Some reply` contributes one referenced send, in order. -/
def okSends (m : Message) : List Scanner → List Send
  | [] => []
  | s :: rest =>
      match s.handle m with
      | .ok (some r) => Send.reply r m.id :: okSends m rest
      | _ => okSends m rest

/-! ## Helper lemmas -/

/-- Every message collected by the backfill walk passed `is_match`. -/
theorem walkMsgs_collected_matches (botUser : Option Nat)
    (isM : Message → Except PyErr Bool) (msgs : List Message) :
    ∀ x ∈ (walkMsgs botUser isM msgs).collected, isM x = .ok true := by
  induction msgs with
  | nil => intro x hx; simp [walkMsgs] at hx
  | cons m rest ih =>
    intro x hx
    by_cases hb : authorIsSelf botUser m
    · simp [walkMsgs, hb] at hx
    · cases he : isM m with
      | error e => simp [walkMsgs, hb, he] at hx
      | ok b =>
        cases b with
        | false =>
          simp [walkMsgs, hb, he] at hx
          exact ih x hx
        | true =>
          simp [walkMsgs, hb, he] at hx
          rcases hx with rfl | hx
          · exact he
          · exact ih x hx

/-- When every scanner before `s` succeeds, the dispatch loop reaches
`s` and invokes its handler. -/
theorem dispatchFrom_invoked_cons (m : Message) (pre : List Scanner) (s : Scanner)
    (post : List Scanner)
    (hpre : ∀ s2 ∈ pre, ∃ r, s2.handle m = .ok r) :
    ∃ tl, (dispatchFrom m (pre ++ s :: post)).1 = pre ++ s :: tl := by
  induction pre with
  | nil =>
    cases hs : s.handle m with
    | error e => exact ⟨[], by simp [dispatchFrom, hs]⟩
    | ok r =>
      cases r with
      | none => exact ⟨(dispatchFrom m post).1, by simp [dispatchFrom, hs]⟩
      | some rr => exact ⟨(dispatchFrom m post).1, by simp [dispatchFrom, hs]⟩
  | cons p pre ih =>
    obtain ⟨r, hp⟩ := hpre p (List.mem_cons_self p pre)
    obtain ⟨tl, htl⟩ := ih (fun s2 h2 => hpre s2 (List.mem_cons_of_mem p h2))
    cases r with
    | none => exact ⟨tl, by simp [dispatchFrom, hp, htl]⟩
    | some rr => exact ⟨tl, by simp [dispatchFrom, hp, htl]⟩

/-- When every scanner before `s` succeeds and `s` raises, the dispatch
result is: the prefix and `s` invoked, the prefix replies sent, then
the single apology. -/
theorem dispatchFrom_error_eq (m : Message) (pre : List Scanner) (s : Scanner)
    (post : List Scanner) (e : PyErr)
    (hpre : ∀ s2 ∈ pre, ∃ r, s2.handle m = .ok r)
    (hs : s.handle m = .error e) :
    dispatchFrom m (pre ++ s :: post) =
      (pre ++ [s], okSends m pre ++ [Send.plain apologyText]) := by
  induction pre with
  | nil => simp [dispatchFrom, hs, okSends]
  | cons p pre ih =>
    obtain ⟨r, hp⟩ := hpre p (List.mem_cons_self p pre)
    have ih2 := ih (fun s2 h2 => hpre s2 (List.mem_cons_of_mem p h2))
    cases r with
    | none => simp [dispatchFrom, hp, okSends, ih2]
    | some rr => simp [dispatchFrom, hp, okSends, ih2]

/-- The replies of succeeding scanners are all referenced sends, never
a plain send. -/
theorem okSends_not_plain (m : Message) (l : List Scanner) (c : String) :
    Send.plain c ∉ okSends m l := by
  induction l with
  | nil => simp [okSends]
  | cons s rest ih =>
    cases hs : s.handle m with
    | error e => simpa [okSends, hs] using ih
    | ok r =>
      cases r with
      | none => simpa [okSends, hs] using ih
      | some rr => simp [okSends, hs, ih]

/-- `on_message` never mutates the client state, so a stream of live
messages is dispatched message-by-message against the same handler
list. -/
theorem runLive_eq_map (st : ClientState) (msgs : List Message) :
    runLive st msgs = msgs.map (fun m => (dispatchFrom m st.message_handlers).2) := by
  induction msgs with
  | nil => rfl
  | cons m rest ih => simp [runLive, onMessage, ih]

/-- A track removed by `playlist_remove_all_occurrences_of_items` no
longer occurs in the playlist. -/
theorem count_remove_all (p : List String) (t : String) :
    (playlist_remove_all_occurrences_of_items p [t]).count t = 0 := by
  rw [List.count_eq_zero]
  intro h
  have h2 := List.mem_filter.mp h
  simp at h2

/-! ## Claim theorems -/

/-- C1 (counterexample): for the message `hello world`,
`WakeUpMessageScanner.is_match` is false, yet live dispatch invokes its
handler — `on_message` calls `handle_message` without consulting
`is_match`. -/
theorem c1_counterexample :
    wakeUpScanner.is_match plainMsg = .ok false ∧
    (dispatchFrom plainMsg [wakeUpScanner]).1 = [wakeUpScanner] :=
  ⟨rfl, rfl⟩

/-- C1 (amended): `is_match` is no pre-filter for live dispatch — when
the scanners before `s` succeed, `s.handle` is invoked for `m` even
though `s.is_match m` is false; `is_match` gates only the backfill
walk, where a non-matching message is never collected for handling. -/
theorem c1_no_prefilter_live (pre : List Scanner) (s : Scanner) (post : List Scanner)
    (m : Message) (hpre : ∀ s2 ∈ pre, ∃ r, s2.handle m = .ok r)
    (hmatch : s.is_match m = .ok false) :
    s ∈ (dispatchFrom m (pre ++ s :: post)).1 ∧
    ∀ (botUser : Option Nat) (msgs : List Message),
      m ∉ (walkMsgs botUser s.is_match msgs).collected := by
  constructor
  · obtain ⟨tl, htl⟩ := dispatchFrom_invoked_cons m pre s post hpre
    rw [htl]
    exact List.mem_append_right pre (List.mem_cons_self s tl)
  · intro botUser msgs hmem
    have hm := walkMsgs_collected_matches botUser s.is_match msgs m hmem
    rw [hmatch] at hm
    exact absurd hm (by simp)

/-- C1 (witness): the wake-up scanner on `hello world`: its handler is
invoked during live dispatch, and the message is not collected by a
backfill walk. -/
theorem c1_no_prefilter_live_witness :
    wakeUpScanner ∈ (dispatchFrom plainMsg [wakeUpScanner]).1 ∧
    plainMsg ∉ (walkMsgs (some 1) wakeUpScanner.is_match [plainMsg]).collected := by
  have h := c1_no_prefilter_live [] wakeUpScanner [] plainMsg (by simp) (by rfl)
  exact ⟨h.1, h.2 (some 1) [plainMsg]⟩

/-- C2 (code bug): a backfill window with one non-bot message: the
inherited `DiscordMessageRegexScanner.is_match` unpacks each bare
compiled pattern of `SpotifyMessageScanner.PATTERNS` as a pair and
raises `TypeError`, so the run aborts and the checkpoint stays at its
prior value `100` instead of advancing to the visited message's
creation time `50`. -/
theorem c2_backfill_checkpoint_eval :
    searchOldMessages (some 1) spotifyIsMatch
      (fun m => (spotifyHandleMessage demoSearch (some 1) m []).map Prod.fst)
      (some 100) c2Window = ⟨some 100, some PyErr.typeError⟩ :=
  rfl

/-- C3 (code bug): a window with the first bot-authored message at
position 1: the walk raises `TypeError` from `is_match` on the message
at position 0 and never reaches the bot message, visiting 1 message
instead of the claimed k+1 = 2. -/
theorem c3_backfill_walk_eval :
    walkMsgs (some 1) spotifyIsMatch c3Window =
      ⟨[⟨11, "hello there", 7, 60⟩], [], some PyErr.typeError⟩ ∧
    authorIsSelf (some 1) (c3Window.get ⟨1, by decide⟩) = true :=
  ⟨rfl, rfl⟩

/-- C4: the reconciler (`__add_track_to_playlist`) removes every
occurrence of the track and then appends it, so two successive calls
leave the playlist with exactly one occurrence of the track. -/
theorem c4_reconcile_idempotent (p : List String) (t : String) :
    (add_track_to_playlist (add_track_to_playlist p t) t).count t = 1 := by
  unfold add_track_to_playlist playlist_add_items
  rw [List.count_append, count_remove_all]
  simp

/-- C5 (code bug): a non-bot message with a direct track link and no
angle-bracket query drives `handle_message` into the link branch, where
`match.group(2)` raises `IndexError` (the link pattern has exactly one
capturing group): no track id is extracted, nothing is reconciled, no
reply is returned. -/
theorem c5_link_branch_raises_eval :
    angleGroup linkMsg.content = none ∧ linkIsMatch linkMsg.content = true ∧
    linkMsg.authorId ≠ 1 ∧
    spotifyHandleMessage demoSearch (some 1) linkMsg ["x"] = .error PyErr.indexError :=
  ⟨rfl, rfl, by decide, rfl⟩

/-- C6 (counterexample): `waaake up bot` — a repeated-letter variant of
the wake-up phrase — does not match `WakeUpMessageScanner.REGEX`: the
bracketed classes `[a+]`, `[u+]`, `[o+]` each match a single
character. -/
theorem c6_counterexample : wakeUpIsMatch "waaake up bot" = false :=
  rfl

/-- C6 (amended): `WakeUpMessageScanner.is_match` accepts
case-insensitive variants of the phrase and variants with appended
punctuation (`WAKE UP BOT`, `wake up bot!!!`), but rejects
repeated-letter variants such as `waaake up bot`. -/
theorem c6_wakeup_variants :
    wakeUpIsMatch "wake up bot" = true ∧ wakeUpIsMatch "WAKE UP BOT" = true ∧
    wakeUpIsMatch "wake up bot!!!" = true ∧ wakeUpIsMatch "waaake up bot" = false :=
  ⟨rfl, rfl, rfl, rfl⟩

/-- C7: when the scanners before `s` succeed and `s.handle` raises, the
dispatch core catches the exception and sends exactly one generic
apology, and every subsequent live message is still dispatched through
the full scanner list. -/
theorem c7_error_single_apology (pre : List Scanner) (s : Scanner) (post : List Scanner)
    (m : Message) (e : PyErr)
    (hpre : ∀ s2 ∈ pre, ∃ r, s2.handle m = .ok r)
    (hs : s.handle m = .error e) :
    ((dispatchFrom m (pre ++ s :: post)).2.count (Send.plain apologyText) = 1) ∧
    ∀ (ts : Option Nat) (rest : List Message),
      runLive ⟨pre ++ s :: post, ts⟩ (m :: rest) =
        (dispatchFrom m (pre ++ s :: post)).2 ::
          rest.map (fun m2 => (dispatchFrom m2 (pre ++ s :: post)).2) := by
  constructor
  · rw [dispatchFrom_error_eq m pre s post e hpre hs, List.count_append]
    have h0 : (okSends m pre).count (Send.plain apologyText) = 0 :=
      List.count_eq_zero.mpr (okSends_not_plain m pre apologyText)
    simp [h0]
  · intro ts rest
    rw [runLive_eq_map]
    simp

/-- C7 (witness): the Spotify scanner raises on a link message; one
apology is sent, and the following live message is dispatched through
the same full scanner list. -/
theorem c7_error_single_apology_witness :
    ((dispatchFrom c7msg
        ([] ++ spotifyScannerAt demoSearch (some 1) [] :: [wakeUpScanner])).2.count
      (Send.plain apologyText) = 1) ∧
    runLive ⟨[] ++ spotifyScannerAt demoSearch (some 1) [] :: [wakeUpScanner], none⟩
        (c7msg :: [plainMsg]) =
      (dispatchFrom c7msg ([] ++ spotifyScannerAt demoSearch (some 1) [] :: [wakeUpScanner])).2 ::
        [plainMsg].map (fun m2 =>
          (dispatchFrom m2 ([] ++ spotifyScannerAt demoSearch (some 1) [] :: [wakeUpScanner])).2) := by
  have h := c7_error_single_apology [] (spotifyScannerAt demoSearch (some 1) [])
    [wakeUpScanner] c7msg PyErr.indexError (by simp) (by rfl)
  exact ⟨h.1, h.2 none [plainMsg]⟩

/-- C8 (counterexample): a bot-authored message carrying both a direct
track link and an angle-bracket query: the link branch does not fire,
but the query branch does — the handler replies with the found track's
URL and the playlist is mutated, against the claim's "no reply, no
playlist mutation". -/
theorem c8_counterexample :
    linkIsMatch botLinkQueryMsg.content = true ∧ botLinkQueryMsg.authorId = 1 ∧
    spotifyHandleMessage demoSearch (some 1) botLinkQueryMsg [] =
      .ok (some "https://open.spotify.com/track/trackabba", ["trackabba"]) :=
  ⟨rfl, rfl, rfl⟩

/-- C8 (amended): for a bot-authored message whose content contains a
direct track link and no angle-bracket query, the link branch does not
fire: the handler returns no reply, raises nothing, and leaves the
playlist unchanged. -/
theorem c8_self_link_no_mutation (search : String → Option (List SearchTrack))
    (b : Nat) (m : Message) (p : List String)
    (hangle : angleGroup m.content = none)
    (_hlink : linkIsMatch m.content = true)
    (hauthor : m.authorId = b) :
    spotifyHandleMessage search (some b) m p = .ok (none, p) := by
  simp [spotifyHandleMessage, hangle, hauthor]

/-- C8 (witness): a bot-authored bare link message leaves the playlist
`["keep"]` untouched and yields no reply. -/
theorem c8_self_link_no_mutation_witness :
    angleGroup botLinkMsg.content = none ∧ linkIsMatch botLinkMsg.content = true ∧
    botLinkMsg.authorId = 1 ∧
    spotifyHandleMessage demoSearch (some 1) botLinkMsg ["keep"] = .ok (none, ["keep"]) :=
  ⟨rfl, rfl, rfl, c8_self_link_no_mutation demoSearch 1 botLinkMsg ["keep"] rfl rfl rfl⟩

/-- C9: the `try` of `on_message` wraps the whole scanner loop: when the
scanners before `s` succeed and `s.handle` raises, only the prefix and
`s` are invoked — the scanners after `s` are not invoked for this
message and only the prefix replies plus the apology are sent. -/
theorem c9_error_aborts_scanner_list (pre : List Scanner) (s : Scanner) (post : List Scanner)
    (m : Message) (e : PyErr)
    (hpre : ∀ s2 ∈ pre, ∃ r, s2.handle m = .ok r)
    (hs : s.handle m = .error e) :
    (dispatchFrom m (pre ++ s :: post)).1 = pre ++ [s] ∧
    (dispatchFrom m (pre ++ s :: post)).2 = okSends m pre ++ [Send.plain apologyText] := by
  rw [dispatchFrom_error_eq m pre s post e hpre hs]
  exact ⟨rfl, rfl⟩

/-- C9 (witness): wake-up scanner first (succeeds with no reply), then
the Spotify scanner raises on a link message: the dispatch stops there
and only the apology is sent. -/
theorem c9_error_aborts_scanner_list_witness :
    (dispatchFrom c9msg ([wakeUpScanner] ++ spotifyScannerAt demoSearch (some 1) [] :: [])).1 =
      [wakeUpScanner] ++ [spotifyScannerAt demoSearch (some 1) []] ∧
    (dispatchFrom c9msg ([wakeUpScanner] ++ spotifyScannerAt demoSearch (some 1) [] :: [])).2 =
      okSends c9msg [wakeUpScanner] ++ [Send.plain apologyText] :=
  c9_error_aborts_scanner_list [wakeUpScanner] (spotifyScannerAt demoSearch (some 1) [])
    [] c9msg PyErr.indexError
    (by intro s2 h2; rw [List.mem_singleton] at h2; subst h2; exact ⟨none, rfl⟩)
    (by rfl)

/-- C10: the self-authored exclusion guards only the link branch — for a
bot-authored message with an angle-bracket query whose search returns a
result, the handler reconciles the found track into the playlist and
replies with its canonical URL. -/
theorem c10_query_branch_no_self_filter (search : String → Option (List SearchTrack))
    (b : Nat) (m : Message) (p : List String) (q : String)
    (track : SearchTrack) (rest : List SearchTrack)
    (hangle : angleGroup m.content = some q)
    (hsearch : search (dehyphen q) = some (track :: rest))
    (hauthor : m.authorId = b) :
    spotifyHandleMessage search (some b) m p =
      .ok (some track.url, add_track_to_playlist p track.id) := by
  simp [spotifyHandleMessage, hangle, hsearch]

/-- C10 (witness): the bot-authored query message `<abba>` still gets
its search hit reconciled and the canonical URL returned. -/
theorem c10_query_branch_no_self_filter_witness :
    angleGroup botQueryMsg.content = some "abba" ∧ botQueryMsg.authorId = 1 ∧
    spotifyHandleMessage demoSearch (some 1) botQueryMsg [] =
      .ok (some "https://open.spotify.com/track/trackabba",
        add_track_to_playlist [] "trackabba") :=
  ⟨rfl, rfl, c10_query_branch_no_self_filter demoSearch 1 botQueryMsg [] "abba"
    ⟨"trackabba", "https://open.spotify.com/track/trackabba"⟩ [] rfl rfl rfl⟩

end Spoopafu
